import Mathlib

/-!
Shallow embedding of the anomaly-scoring / threat-state engine of
`src/app.js` (class `QuantumCryptoDemo`).

Modelling conventions:
* JS numbers are modelled as `ℚ` (the engine only performs comparisons,
  additions, `Math.min`/`Math.max` and fixed constants; all spec-level
  constants are exact decimals).
* The mutable `this.currentState` object is the structure `EngineState`.
  The purely cosmetic fields (`currentTab`, the chart's arrays of plotted
  points, the `setTimeout` interval handles) are not modelled; the chart
  object itself is modelled by the Bool `qberChart` (whether a chart
  exists), because `updateQBERChart` early-returns on a null chart.
* Calls to `Math.random()` are modelled by passing the drawn value in as
  an argument: `updateQBERChart` receives the freshly sampled QBER value,
  and `startE91Protocol` receives a stream `bits : ℕ → Bool` of random
  key bits.
* The security-alert DOM container `#security-alerts` is the list
  `recentAlerts`, newest first, exactly as `addSecurityAlert` maintains it
  (`insertBefore … firstChild`, then remove `lastChild` while length > 5).
  The wall-clock `toLocaleTimeString()` timestamp is outside the model;
  an alert is its message and severity class.
* `showAlert` creates a transient popup that is removed after 4 s and is
  never inserted into `#security-alerts`; it does not touch engine state
  and is not modelled.
-/

/-- Severity classes passed to `addSecurityAlert` in `src/app.js`
(`'success'`, `'warning'`, `'error'`). -/
inductive Severity where
  | success
  | warning
  | error
deriving DecidableEq, Repr

/-- One entry of the `#security-alerts` log: the message and the severity
class of the rendered element (`src/app.js:583-601`). -/
structure Alert where
  message : String
  severity : Severity
deriving DecidableEq, Repr

/-- One profile of `data.e91_protocol` (`src/app.js:17-36`). -/
structure E91Profile where
  num_pairs : ℕ
  matching_pairs : ℕ
  shared_key_length : ℕ
  qber : ℚ
  eavesdrop_detected : Bool
  threat_level : String
deriving DecidableEq, Repr

/-- `data.e91_protocol.normal_operation` (`src/app.js:18-25`). -/
def normal_operation : E91Profile :=
  { num_pairs := 100
    matching_pairs := 19
    shared_key_length := 19
    qber := 2/100
    eavesdrop_detected := false
    threat_level := "LOW" }

/-- `data.e91_protocol.under_attack` (`src/app.js:26-35`). -/
def under_attack : E91Profile :=
  { num_pairs := 100
    matching_pairs := 16
    shared_key_length := 16
    qber := 28/100
    eavesdrop_detected := true
    threat_level := "HIGH" }

/-- `data.ai_detection.baseline_qber` (`src/app.js:38`). -/
def baseline_qber : ℚ := 2/100

/-- `data.ai_detection.alert_threshold` (`src/app.js:39`); also the
literal `0.11` compared against in `updateQBERChart` (`src/app.js:523`). -/
def alert_threshold : ℚ := 11/100

/-- `data.ai_detection.anomaly_scores` (`src/app.js:40`). -/
def anomaly_scores : List ℚ := [1/10, 2/10, 8/10, 5/2]

/-- `data.ai_detection.threat_levels` (`src/app.js:41`). -/
def threat_levels : List String := ["LOW", "LOW", "MEDIUM", "HIGH"]

/-- `data.ai_detection.recommendations` (`src/app.js:42-47`). -/
def recommendations : List String :=
  [ "Continue key exchange - Normal operation"
  , "Continue key exchange - Normal operation"
  , "Monitor closely - Elevated error rate detected"
  , "Abort key exchange - Possible eavesdropping detected" ]

/-- The engine-relevant part of `this.currentState` (`src/app.js:59-66`).
`qberChart` records whether the Chart.js object exists (it is created on
first visit of the AI tab and recreated by `resetMonitoring`). -/
structure EngineState where
  isUnderAttack : Bool
  qberChart : Bool
  monitoringActive : Bool
  e91Active : Bool
  anomalyScore : ℚ
  recentAlerts : List Alert
deriving DecidableEq, Repr

/-- The constructor's initial `currentState` (`src/app.js:59-66`), with an
empty `#security-alerts` container. -/
def initialState : EngineState :=
  { isUnderAttack := false
    qberChart := false
    monitoringActive := false
    e91Active := false
    anomalyScore := 1/10
    recentAlerts := [] }

/-- The `while (alertsContainer.children.length > 5) removeChild(lastChild)`
loop of `addSecurityAlert` (`src/app.js:598-600`): drop the oldest (last)
entry while more than 5 remain. -/
def trimAlerts (l : List Alert) : List Alert :=
  if l.length > 5 then trimAlerts l.dropLast else l
termination_by l.length
decreasing_by
  simp only [List.length_dropLast]
  omega

/-- `addSecurityAlert(message, type)` (`src/app.js:583-601`): insert the
new alert before the first child (newest first), then trim to 5 entries. -/
def addSecurityAlert (st : EngineState) (message : String) (sev : Severity) :
    EngineState :=
  { st with recentAlerts := trimAlerts (Alert.mk message sev :: st.recentAlerts) }

/-- `startAIMonitoring()` (`src/app.js:484-495`): set `monitoringActive`
and log a `success` alert. The `setInterval` handle that periodically calls
`updateQBERChart` is scheduling, not state, and is not modelled. -/
def startAIMonitoring (st : EngineState) : EngineState :=
  addSecurityAlert { st with monitoringActive := true }
    "AI monitoring system activated" .success

/-- `initializeQBERChart()` (`src/app.js:427-482`): creates the Chart.js
object (all of its configuration is cosmetic; only its existence matters to
the engine). -/
def initializeQBERChart (st : EngineState) : EngineState :=
  { st with qberChart := true }

/-- `Number.prototype.toFixed(3)` as used on the sampled QBER value in
`updateQBERChart` (`src/app.js:525`), modelled on exact rationals for the
nonnegative samples the dashboard draws: round to the nearest thousandth
(half up) and print the integer part, a dot, and exactly three digits. -/
def toFixed3 (q : ℚ) : String :=
  let n : ℕ := (⌊q * 1000 + 1/2⌋).toNat
  Nat.repr (n / 1000) ++
    String.mk ['.', Nat.digitChar (n % 1000 / 100), Nat.digitChar (n % 1000 / 10 % 10),
      Nat.digitChar (n % 10)]

/-- `updateQBERChart()` (`src/app.js:497-531`), the engine's
`observeErrorRateSample`: bail out unless a chart exists and monitoring is
active; otherwise, for the freshly drawn sample, either raise
`anomalyScore` by 0.3 (capped at 3.0 by `Math.min`) and log a `warning`
alert reporting the sample to 3 decimal places, or lower `anomalyScore` by
0.1 (floored at 0.1 by `Math.max`). The chart's plotted point list is
cosmetic and not modelled. -/
def updateQBERChart (st : EngineState) (newValue : ℚ) : EngineState :=
  if st.qberChart && st.monitoringActive then
    if newValue > alert_threshold then
      addSecurityAlert
        { st with anomalyScore := min 3 (st.anomalyScore + 3/10) }
        ("Elevated QBER detected: " ++ toFixed3 newValue) .warning
    else
      { st with anomalyScore := max (1/10) (st.anomalyScore - 1/10) }
  else st

/-- `triggerAnomaly()` (`src/app.js:533-540`): force `anomalyScore = 2.5`
and `isUnderAttack = true`, and log the critical alert (severity class
`'error'`). -/
def triggerAnomaly (st : EngineState) : EngineState :=
  addSecurityAlert
    { st with anomalyScore := 5/2, isUnderAttack := true }
    "CRITICAL: Anomaly detected - possible eavesdropping attempt!" .error

/-- `simulateEavesdropping()` (`src/app.js:371-389`): set
`isUnderAttack = true` and force `anomalyScore = 2.5`. Its breach notice
goes through the transient `showAlert`, not `addSecurityAlert`, so
`recentAlerts` is untouched. -/
def simulateEavesdropping (st : EngineState) : EngineState :=
  { st with isUnderAttack := true, anomalyScore := 5/2 }

/-- `resetMonitoring()` (`src/app.js:542-561`): stop monitoring, clear the
attack flag, reset the score to 0.1 and empty `#security-alerts`. The chart
is destroyed and immediately recreated, so its existence flag is kept. -/
def resetMonitoring (st : EngineState) : EngineState :=
  { st with monitoringActive := false
            isUnderAttack := false
            anomalyScore := 1/10
            recentAlerts := [] }

/-- `generateQuantumKey(length)` (`src/app.js:785-787`): a string of
`length` random bits, here drawn from the stream `bits`. -/
def generateQuantumKey (length : ℕ) (bits : ℕ → Bool) : String :=
  String.mk ((List.range length).map (fun i => if bits i then '1' else '0'))

/-- The error taxonomy the specification declares for the engine. -/
inductive EngineError where
  | invalidArgument
deriving DecidableEq, Repr

/-- `startE91Protocol()` (`src/app.js:344-369`), the engine's
`startKeyExchange`: set `e91Active` and produce the final key
`generateQuantumKey(data.e91_protocol.normal_operation.shared_key_length)`
(`src/app.js:364`). The JS method declares no parameter, so a
caller-supplied `pairCount` is ignored by JS call semantics; the body
contains no `throw`, so the `Except` result is always `ok`. The
partially-accumulated key shown during the progress animation is
overwritten by the final key and is not modelled. -/
def startE91Protocol (pairCount : Int) (st : EngineState) (bits : ℕ → Bool) :
    Except EngineError (EngineState × String) :=
  Except.ok ({ st with e91Active := true },
    generateQuantumKey normal_operation.shared_key_length bits)

/-- The recommendation-index selection of `updateAIDisplay`
(`src/app.js:575-578`). -/
def recommendationIndex (score : ℚ) : ℕ :=
  if score > 2 then 3
  else if score > 1 then 2
  else if score > 1/2 then 1
  else 0

/-- The recommendation string `updateAIDisplay` renders
(`src/app.js:575-580`): `data.ai_detection.recommendations` at the
selected index. -/
def recommendationFor (score : ℚ) : String :=
  recommendations.getD (recommendationIndex score) ""

/-- One user-driven engine event, for reasoning about arbitrary operation
sequences. Each constructor invokes the corresponding `src/app.js`
method; `observe` carries the QBER value the tick would draw, and
`keyExchange` the pair count and random bit stream. -/
inductive Op where
  | observe (sample : ℚ)
  | trigger
  | eavesdrop
  | keyExchange (pairCount : Int) (bits : ℕ → Bool)
  | startMonitoring
  | initChart
  | reset

/-- Apply one engine event to a state. `keyExchange` keeps the state of a
(never occurring) error branch unchanged. -/
def stepOp (st : EngineState) : Op → EngineState
  | .observe s => updateQBERChart st s
  | .trigger => triggerAnomaly st
  | .eavesdrop => simulateEavesdropping st
  | .keyExchange pc bits =>
      match startE91Protocol pc st bits with
      | .ok (st', _) => st'
      | .error _ => st
  | .startMonitoring => startAIMonitoring st
  | .initChart => initializeQBERChart st
  | .reset => resetMonitoring st

/-- Run a finite sequence of engine events from the state `reset()`
produces. -/
def runOps (ops : List Op) : EngineState :=
  ops.foldl stepOp (resetMonitoring initialState)

/-- The eviction loop of `addSecurityAlert` keeps exactly the first
(newest) five entries. -/
theorem trimAlerts_eq_take (l : List Alert) : trimAlerts l = l.take 5 := by
  rw [trimAlerts]
  split
  · rename_i h
    rw [trimAlerts_eq_take l.dropLast, List.dropLast_eq_take, List.take_take,
      min_eq_left (by omega)]
  · rename_i h
    exact (List.take_of_length_le (by omega)).symm
termination_by l.length
decreasing_by
  simp only [List.length_dropLast]
  omega

/-- C1: with monitoring active and the chart present, observing an
error-rate sample above 0.11 raises the anomaly score by exactly 0.3,
clamped so it never exceeds 3.0, and a sample at or below 0.11 lowers it
by exactly 0.1, floored so it never drops below 0.1. -/
theorem observeErrorRateSample_score_update (st : EngineState) (s : ℚ)
    (hM : st.monitoringActive = true) (hC : st.qberChart = true) :
    (s > alert_threshold →
      (updateQBERChart st s).anomalyScore = min 3 (st.anomalyScore + 3/10) ∧
      (updateQBERChart st s).anomalyScore ≤ 3) ∧
    (s ≤ alert_threshold →
      (updateQBERChart st s).anomalyScore = max (1/10) (st.anomalyScore - 1/10) ∧
      1/10 ≤ (updateQBERChart st s).anomalyScore) := by
  constructor
  · intro hs
    rw [updateQBERChart, hM, hC]
    simp only [Bool.and_self, if_true, if_pos hs, addSecurityAlert]
    exact ⟨trivial, min_le_left _ _⟩
  · intro hs
    rw [updateQBERChart, hM, hC]
    simp only [Bool.and_self, if_true, if_neg (not_lt.mpr hs)]
    exact ⟨trivial, le_max_left _ _⟩

/-- Witness for C1 at a concrete active state and the samples 0.2 and
0.05. -/
theorem observeErrorRateSample_score_update_witness :
    (updateQBERChart
        { initialState with monitoringActive := true, qberChart := true }
        (1/5)).anomalyScore
      = min 3 (initialState.anomalyScore + 3/10) ∧
    (updateQBERChart
        { initialState with monitoringActive := true, qberChart := true }
        (1/20)).anomalyScore
      = max (1/10) (initialState.anomalyScore - 1/10) :=
  ⟨((observeErrorRateSample_score_update _ (1/5) rfl rfl).1
      (by norm_num [alert_threshold])).1,
   ((observeErrorRateSample_score_update _ (1/20) rfl rfl).2
      (by norm_num [alert_threshold])).1⟩

/-- C6: `triggerAnomaly` forces the anomaly score to 2.5 and the attack
flag on from every prior state, and a repeated call keeps exactly these
forced values. -/
theorem triggerAnomaly_forces (st : EngineState) :
    (triggerAnomaly st).anomalyScore = 5/2 ∧
    (triggerAnomaly st).isUnderAttack = true ∧
    (triggerAnomaly (triggerAnomaly st)).anomalyScore = 5/2 ∧
    (triggerAnomaly (triggerAnomaly st)).isUnderAttack = true := by
  simp [triggerAnomaly, addSecurityAlert]

/-- C7: `resetMonitoring` restores the documented defaults from every
prior state, and resetting twice yields the same state as resetting
once. -/
theorem resetMonitoring_defaults (st : EngineState) :
    (resetMonitoring st).isUnderAttack = false ∧
    (resetMonitoring st).anomalyScore = 1/10 ∧
    (resetMonitoring st).recentAlerts = [] ∧
    resetMonitoring (resetMonitoring st) = resetMonitoring st := by
  simp [resetMonitoring]

/-- C10: when monitoring is inactive, `updateQBERChart` drops the sample
and leaves the whole state unchanged; monitoring is inactive initially and
after every reset. -/
theorem updateQBERChart_inactive_noop :
    (∀ (st : EngineState) (s : ℚ),
      st.monitoringActive = false → updateQBERChart st s = st) ∧
    initialState.monitoringActive = false ∧
    (∀ st : EngineState, (resetMonitoring st).monitoringActive = false) := by
  refine ⟨fun st s h => ?_, rfl, fun st => rfl⟩
  rw [updateQBERChart, h]
  simp

/-- Witness for C10: the initial state drops the sample 0.5 entirely. -/
theorem updateQBERChart_inactive_noop_witness :
    updateQBERChart initialState (1/2) = initialState :=
  updateQBERChart_inactive_noop.1 initialState (1/2) rfl

/-- The alert log after `addSecurityAlert` is the new alert followed by
the first four old entries. -/
theorem addSecurityAlert_alerts (st : EngineState) (msg : String) (sev : Severity) :
    (addSecurityAlert st msg sev).recentAlerts
      = (Alert.mk msg sev :: st.recentAlerts).take 5 := by
  simp [addSecurityAlert, trimAlerts_eq_take]

/-- Every single engine event keeps the anomaly score inside
[0.1, 3.0]. -/
theorem stepOp_score_bounds (st : EngineState) (op : Op)
    (h1 : 1/10 ≤ st.anomalyScore) (h2 : st.anomalyScore ≤ 3) :
    1/10 ≤ (stepOp st op).anomalyScore ∧ (stepOp st op).anomalyScore ≤ 3 := by
  cases op with
  | observe s =>
      simp only [stepOp, updateQBERChart]
      split
      · split
        · simp only [addSecurityAlert]
          exact ⟨le_min (by norm_num) (by linarith), min_le_left _ _⟩
        · exact ⟨le_max_left _ _, max_le (by norm_num) (by linarith)⟩
      · exact ⟨h1, h2⟩
  | trigger =>
      simp only [stepOp, triggerAnomaly, addSecurityAlert]
      norm_num
  | eavesdrop =>
      simp only [stepOp, simulateEavesdropping]
      norm_num
  | keyExchange pc bits =>
      simp only [stepOp, startE91Protocol]
      exact ⟨h1, h2⟩
  | startMonitoring =>
      simp only [stepOp, startAIMonitoring, addSecurityAlert]
      exact ⟨h1, h2⟩
  | initChart => exact ⟨h1, h2⟩
  | reset =>
      simp only [stepOp, resetMonitoring]
      norm_num

/-- Every single engine event keeps the alert log at five entries or
fewer. -/
theorem stepOp_alerts_length (st : EngineState) (op : Op)
    (h : st.recentAlerts.length ≤ 5) :
    (stepOp st op).recentAlerts.length ≤ 5 := by
  have hadd : ∀ (st' : EngineState) (msg : String) (sev : Severity),
      (addSecurityAlert st' msg sev).recentAlerts.length ≤ 5 := by
    intro st' msg sev
    rw [addSecurityAlert_alerts, List.length_take]
    exact min_le_left _ _
  cases op with
  | observe s =>
      simp only [stepOp, updateQBERChart]
      split
      · split
        · exact hadd _ _ _
        · exact h
      · exact h
  | trigger => exact hadd _ _ _
  | eavesdrop => exact h
  | keyExchange pc bits => exact h
  | startMonitoring => exact hadd _ _ _
  | initChart => exact h
  | reset => simp [stepOp, resetMonitoring]

/-- C2: starting from the state `resetMonitoring` produces, every finite
sequence of engine events (observe a sample, trigger the anomaly, simulate
eavesdropping, start a key exchange, start monitoring, create the chart,
reset) leaves the anomaly score within [0.1, 3.0]. -/
theorem anomalyScore_bounded (ops : List Op) :
    1/10 ≤ (runOps ops).anomalyScore ∧ (runOps ops).anomalyScore ≤ 3 := by
  have H : ∀ (l : List Op) (st : EngineState),
      1/10 ≤ st.anomalyScore → st.anomalyScore ≤ 3 →
      1/10 ≤ (l.foldl stepOp st).anomalyScore ∧
        (l.foldl stepOp st).anomalyScore ≤ 3 := by
    intro l
    induction l with
    | nil => exact fun st h1 h2 => ⟨h1, h2⟩
    | cons op tl ih =>
        intro st h1 h2
        have hb := stepOp_score_bounds st op h1 h2
        exact ih _ hb.1 hb.2
  exact H _ _ (by norm_num [resetMonitoring]) (by norm_num [resetMonitoring])

/-- C8: after every sequence of engine events the alert log holds at most
five entries, and each insertion puts the new alert first and keeps only
the five newest, evicting the oldest past capacity. -/
theorem recentAlerts_bounded (ops : List Op) :
    (runOps ops).recentAlerts.length ≤ 5 ∧
    ∀ (st : EngineState) (msg : String) (sev : Severity),
      (addSecurityAlert st msg sev).recentAlerts
        = (Alert.mk msg sev :: st.recentAlerts).take 5 := by
  constructor
  · have H : ∀ (l : List Op) (st : EngineState), st.recentAlerts.length ≤ 5 →
        (l.foldl stepOp st).recentAlerts.length ≤ 5 := by
      intro l
      induction l with
      | nil => exact fun st h => h
      | cons op tl ih => exact fun st h => ih _ (stepOp_alerts_length st op h)
    exact H _ _ (by simp [resetMonitoring])
  · exact addSecurityAlert_alerts

/-- C9: with monitoring active and the chart present, observing a sample
emits an alert exactly when the sample exceeds the 0.11 threshold; the
alert has severity `warning`, its message reports the sample to exactly
three decimal places, and it is placed at the front of the log; a sample
at or below the threshold leaves the log untouched. -/
theorem observeErrorRateSample_alert_iff (st : EngineState) (s : ℚ)
    (hM : st.monitoringActive = true) (hC : st.qberChart = true) :
    (s > alert_threshold →
      (updateQBERChart st s).recentAlerts
        = trimAlerts
            (Alert.mk ("Elevated QBER detected: " ++ toFixed3 s) .warning
              :: st.recentAlerts) ∧
      ∃ ip a b c, toFixed3 s = Nat.repr ip ++ String.mk ['.', a, b, c]) ∧
    (s ≤ alert_threshold →
      (updateQBERChart st s).recentAlerts = st.recentAlerts) := by
  constructor
  · intro hs
    constructor
    · rw [updateQBERChart, hM, hC]
      simp only [Bool.and_self, if_true, if_pos hs, addSecurityAlert]
    · exact ⟨_, _, _, _, rfl⟩
  · intro hs
    rw [updateQBERChart, hM, hC]
    simp only [Bool.and_self, if_true, if_neg (not_lt.mpr hs)]

/-- Witness for C9 at a concrete active state and the sample 0.2, whose
report renders as "0.200". -/
theorem observeErrorRateSample_alert_iff_witness :
    (updateQBERChart
        { initialState with monitoringActive := true, qberChart := true }
        (1/5)).recentAlerts
      = trimAlerts
          (Alert.mk ("Elevated QBER detected: " ++ toFixed3 (1/5)) .warning
            :: ({ initialState with
                  monitoringActive := true, qberChart := true } :
                EngineState).recentAlerts) ∧
    toFixed3 (1/5) = "0.200" :=
  ⟨((observeErrorRateSample_alert_iff _ (1/5) rfl rfl).1
      (by norm_num [alert_threshold])).1,
   by
     have h : (⌊(1/5 : ℚ) * 1000 + 1/2⌋ : ℤ) = 200 := by norm_num
     simp only [toFixed3, h]
     rfl⟩

/-- C3: the recommendation logic of `updateAIDisplay` agrees with the
calibration table at scores 0.1 and 2.5 but not at 0.8: the table pairs
0.8 with MEDIUM and "Monitor closely - Elevated error rate detected",
while the display logic picks index 1, "Continue key exchange - Normal
operation". -/
theorem recommendation_calibration :
    recommendationFor (1/10) = "Continue key exchange - Normal operation" ∧
    recommendationFor (5/2) = "Abort key exchange - Possible eavesdropping detected" ∧
    anomaly_scores.getD 2 0 = 8/10 ∧
    threat_levels.getD 2 "" = "MEDIUM" ∧
    recommendations.getD 2 "" = "Monitor closely - Elevated error rate detected" ∧
    recommendationFor (8/10) = "Continue key exchange - Normal operation" := by
  refine ⟨?_, ?_, rfl, rfl, rfl, ?_⟩ <;>
    norm_num [recommendationFor, recommendationIndex, recommendations]

/-- C4 counterexample: with the attack flag set, `startE91Protocol` still
produces a key of length 19, although the under-attack profile's shared
key length is 16. -/
theorem startE91Protocol_under_attack_key :
    ({ initialState with isUnderAttack := true } : EngineState).isUnderAttack
      = true ∧
    Except.map (fun r : EngineState × String => r.2.length)
      (startE91Protocol 100 { initialState with isUnderAttack := true }
        (fun _ => false))
      = Except.ok 19 ∧
    under_attack.shared_key_length = 16 :=
  ⟨rfl, rfl, rfl⟩

/-- C4 (amended): `startE91Protocol` always draws the key length from the
normal-operation profile, returning a 19-bit key whatever the attack flag
is, and never mutates `isUnderAttack`. -/
theorem startE91Protocol_key_from_normal_profile (pc : Int) (st : EngineState)
    (bits : ℕ → Bool) :
    startE91Protocol pc st bits
      = Except.ok ({ st with e91Active := true },
          generateQuantumKey normal_operation.shared_key_length bits) ∧
    (generateQuantumKey normal_operation.shared_key_length bits).length = 19 ∧
    Except.map (fun r : EngineState × String => r.1.isUnderAttack)
      (startE91Protocol pc st bits) = Except.ok st.isUnderAttack := by
  refine ⟨rfl, ?_, rfl⟩
  simp [generateQuantumKey, String.length, normal_operation]

/-- C5 counterexample: `startE91Protocol` succeeds at pair counts 0 and
-5 instead of failing with `invalidArgument`. -/
theorem startE91Protocol_nonpositive_ok :
    startE91Protocol 0 initialState (fun _ => false)
      = Except.ok ({ initialState with e91Active := true },
          generateQuantumKey normal_operation.shared_key_length (fun _ => false)) ∧
    startE91Protocol (-5) initialState (fun _ => false)
      = Except.ok ({ initialState with e91Active := true },
          generateQuantumKey normal_operation.shared_key_length (fun _ => false)) :=
  ⟨rfl, rfl⟩

/-- C5 (amended): `startE91Protocol` ignores its pair count and succeeds
for every input; no error is ever raised. -/
theorem startE91Protocol_never_errors (pc : Int) (st : EngineState)
    (bits : ℕ → Bool) :
    Except.map (fun _ : EngineState × String => ())
      (startE91Protocol pc st bits) = Except.ok () := rfl
